import Mathlib

/-!
Verification of the gif-converter command-line client (scripts/convert.py).

The Python source is shallowly embedded.  HTTP traffic is abstracted as
scripted response data: the polling loop consumes a function from the
iteration index to the parsed job snapshot, the upload a single response
value (or a transport exception), the download a list of byte chunks.
Wall-clock time is an explicit elapsed-time function sampled once per
polling iteration (the value of time.time() - start_time at that
iteration's check), and terminal output is the list of strings written to
stdout.  Each definition mirrors the Python function of the same name.
-/

namespace GifConverter

/-- A job snapshot as parsed from a successful GET /api/jobs response body.
The fields mirror the keys the client reads; status, progress and
current_pass carry the dict.get defaults already applied, while
error_message is none exactly when the key is absent. -/
structure Job where
  status : String
  progress : Nat
  current_pass : Nat
  error_message : Option String
deriving DecidableEq, Repr

/-- rotate_to_transpose from the source: the dict lookup
{0: 0, 90: 1, 270: 2, 180: 3}.get(degrees, 0) on a Python int. -/
def rotate_to_transpose (degrees : Int) : Int :=
  if degrees = 0 then 0
  else if degrees = 90 then 1
  else if degrees = 270 then 2
  else if degrees = 180 then 3
  else 0

/-- print_progress from the source: the single string written to stdout by
one call.  filled = int(bar_width * progress / 100) is Nat floor division
here because progress is a machine Nat in this embedding (the claims range
over 0-100).  The f-string is
"\r{status}{pass_info}: [{bar}] {progress}%{' ' * 10}{end}". -/
def print_progress (status : String) (progress : Nat) (current_pass : Nat)
    (endStr : String) : String :=
  let bar_width : Nat := 30
  let filled : Nat := bar_width * progress / 100
  let bar : String :=
    String.mk (List.replicate filled '█') ++
      String.mk (List.replicate (bar_width - filled) '░')
  let pass_info : String :=
    if 0 < current_pass then " (Pass " ++ Nat.repr current_pass ++ "/3)" else ""
  "\r" ++ status ++ pass_info ++ ": [" ++ bar ++ "] " ++ Nat.repr progress ++
    "%" ++ String.mk (List.replicate 10 ' ') ++ endStr

/-- Helper for Python str.title over ASCII text: an alphabetic character is
uppercased when the previous character is not alphabetic, lowercased
otherwise. -/
def titleCaseAux : Bool → List Char → List Char
  | _, [] => []
  | prevAlpha, c :: cs =>
    (if c.isAlpha then (if prevAlpha then c.toLower else c.toUpper) else c) ::
      titleCaseAux c.isAlpha cs

/-- Python str.title() as used for the unrecognized-status fallback. -/
def titleCase (s : String) : String :=
  String.mk (titleCaseAux false s.data)

/-- The status_display dict lookup in wait_for_completion, with the
.get(status, status.title()) fallback. -/
def statusDisplay (s : String) : String :=
  if s = "uploading" then "Uploading"
  else if s = "queued" then "Queued"
  else if s = "processing" then "Processing"
  else if s = "compressing" then "Compressing"
  else if s = "completed" then "Completed"
  else if s = "failed" then "Failed"
  else titleCase s

/-- A status is terminal when it is completed or failed (spec section 4.3). -/
def terminalStatus (s : String) : Bool :=
  (s == "completed") || (s == "failed")

/-- Result of the polling loop: TimeoutError carrying the timeout in
seconds, the RuntimeError raised for a failed job carrying the embedded
error message, normal return of the job snapshot, or exhaustion of the
scripted fuel (a model artifact: the Python loop is unbounded). -/
inductive PollResult where
  | timedOut (timeoutSecs : Nat)
  | conversionFailed (msg : String)
  | completed (job : Job)
  | outOfFuel
deriving DecidableEq, Repr

/-- The per-iteration progress line of wait_for_completion, emitted only
when show_progress is set (print_progress with the default end "\r"). -/
def statusLine (sp : Bool) (job : Job) : List String :=
  if sp then
    [print_progress (statusDisplay job.status) job.progress job.current_pass "\r"]
  else []

/-- The final line for a completed job: print_progress("Completed", 100, end="\n"),
emitted only when show_progress is set. -/
def completedLine (sp : Bool) : List String :=
  if sp then [print_progress "Completed" 100 0 "\n"] else []

/-- The bare print() emitted before raising on a failed job, only when
show_progress is set: a single line break. -/
def failedBreak (sp : Bool) : List String :=
  if sp then ["\n"] else []

/-- The message embedded in the RuntimeError for a failed job:
job.get("error_message", "Unknown error"). -/
def failMsg (job : Job) : String :=
  job.error_message.getD "Unknown error"

/-- The body of wait_for_completion.  Iteration i first checks
time.time() - start_time > timeout (elapsed i > timeout) and raises
TimeoutError; otherwise it fetches the scripted snapshot respond i
(a successful GET, parsed), prints the progress line when enabled, returns
on completed, raises on failed, and otherwise sleeps 0.5 s (reflected only
through the elapsed-time function) and repeats.  fuel bounds the recursion;
the Python loop itself is unbounded.  The result pairs the stdout trace
with the outcome. -/
def waitLoop (timeout : Nat) (sp : Bool) (elapsed : Nat → Rat)
    (respond : Nat → Job) : Nat → Nat → List String × PollResult
  | 0, _ => ([], PollResult.outOfFuel)
  | fuel + 1, i =>
    if (timeout : Rat) < elapsed i then
      ([], PollResult.timedOut timeout)
    else if (respond i).status = "completed" then
      (statusLine sp (respond i) ++ completedLine sp,
        PollResult.completed (respond i))
    else if (respond i).status = "failed" then
      (statusLine sp (respond i) ++ failedBreak sp,
        PollResult.conversionFailed (failMsg (respond i)))
    else
      (statusLine sp (respond i) ++ (waitLoop timeout sp elapsed respond fuel (i + 1)).1,
        (waitLoop timeout sp elapsed respond fuel (i + 1)).2)

/-- wait_for_completion from the source: the polling loop started at
iteration 0. -/
def wait_for_completion (timeout : Nat) (sp : Bool) (elapsed : Nat → Rat)
    (respond : Nat → Job) (fuel : Nat) : List String × PollResult :=
  waitLoop timeout sp elapsed respond fuel 0

/-- One entry of the jobs list in the upload response body; the client
reads jobs[0]["id"]. -/
structure UploadJobEntry where
  id : String
deriving DecidableEq, Repr

/-- The parsed JSON body of the upload response, restricted to the fields
the client reads: an optional "error" string and an optional "jobs" list
(absent key versus present list distinguished because result.get("jobs", [])
defaults the absent case). -/
structure UploadJson where
  error : Option String
  jobs : Option (List UploadJobEntry)
deriving DecidableEq, Repr

/-- The POST /api/upload response: status code, raw body text, and the
parsed JSON body (none when response.json() raises). -/
structure UploadResponse where
  statusCode : Nat
  text : String
  jsonBody : Option UploadJson
deriving DecidableEq, Repr

/-- Possible outcomes of upload_file: the returned job id, the RuntimeError
raised by upload_file itself (carrying the embedded message), an exception
propagating out of requests.post, or the JSON decode error raised by
response.json() on an ok response with an unparseable body. -/
inductive UploadOutcome where
  | success (jobId : String)
  | submissionError (msg : String)
  | transportError (msg : String)
  | jsonDecodeError
deriving DecidableEq, Repr

/-- Exit record of one upload_file call: the outcome together with the
file handles still open when control leaves the function. -/
structure UploadExec where
  outcome : UploadOutcome
  openHandlesAtExit : List String
deriving DecidableEq, Repr

/-- upload_file from the source.  The function opens the primary file (the
"files" handle) and, when a background image is supplied and exists, the
"background" handle; then performs requests.post.  When the POST raises,
the exception propagates before the close loop runs, so the handles stay
open.  After the close loop it checks `if not response.ok` — requests
defines Response.ok as status_code < 400 — and raises RuntimeError with
the message from try: response.json().get("error", response.text)
except: response.text.  On an ok response it parses the body, reads
result.get("jobs", []), raises RuntimeError("No job created") on an empty
list and otherwise returns jobs[0]["id"]. -/
def upload_file (hasBg : Bool) (post : Except String UploadResponse) :
    UploadExec :=
  let handles : List String := "files" :: (if hasBg then ["background"] else [])
  match post with
  | Except.error e =>
    { outcome := UploadOutcome.transportError e, openHandlesAtExit := handles }
  | Except.ok response =>
    if response.statusCode < 400 then
      match response.jsonBody with
      | none =>
        { outcome := UploadOutcome.jsonDecodeError, openHandlesAtExit := [] }
      | some body =>
        match body.jobs.getD [] with
        | [] =>
          { outcome := UploadOutcome.submissionError "No job created",
            openHandlesAtExit := [] }
        | firstJob :: _ =>
          { outcome := UploadOutcome.success firstJob.id,
            openHandlesAtExit := [] }
    else
      { outcome := UploadOutcome.submissionError
          (match response.jsonBody with
           | some body => body.error.getD response.text
           | none => response.text),
        openHandlesAtExit := [] }

/-- Discriminator for the RuntimeError-raised-by-upload_file outcome. -/
def UploadOutcome.isSubmissionError : UploadOutcome → Bool
  | UploadOutcome.submissionError _ => true
  | _ => false

/-- The chunk loop of download_file: given total_size (the content-length
header, 0 when absent) and the remaining chunks, with `downloaded` bytes
already counted, it returns the bytes written to the file and the percent
values passed to print_progress("Downloading", ·).  Each chunk is written,
the counter advanced, and when show_progress is set and total_size > 0 the
percent int(downloaded * 100 / total_size) is reported. -/
def download_iter (total : Nat) (sp : Bool) :
    List (List Nat) → Nat → List Nat × List Nat
  | [], _ => ([], [])
  | c :: cs, downloaded =>
    (c ++ (download_iter total sp cs (downloaded + c.length)).1,
      (if sp ∧ 0 < total then [(downloaded + c.length) * 100 / total] else []) ++
        (download_iter total sp cs (downloaded + c.length)).2)

/-- Observable run of one download_file call: bytes written to the
destination, the per-chunk percent reports, and the Python return value. -/
structure DownloadRun where
  written : List Nat
  percents : List Nat
  retval : Option Nat
deriving DecidableEq, Repr

/-- download_file from the source: streams the scripted chunks to the
destination starting from downloaded = 0.  The Python function has no
return statement, so its value is None (retval := none); the byte count is
observable only through the destination file and the printed summary. -/
def download_file (total : Nat) (chunks : List (List Nat)) (sp : Bool) :
    DownloadRun :=
  { written := (download_iter total sp chunks 0).1,
    percents := (download_iter total sp chunks 0).2,
    retval := none }

/-- Outcome of the GET /api/health call in main: either requests raised a
ConnectionError, or a response arrived with some HTTP status code. -/
inductive HealthOutcome where
  | connectionError
  | httpResponse (statusCode : Nat)
deriving DecidableEq, Repr

/-- What main does right after the health check. -/
inductive HealthAction where
  | exitCannotConnect
  | proceedToUpload
deriving DecidableEq, Repr

/-- The health-check branch of main: try requests.get(health_url, timeout=5)
except ConnectionError prints the cannot-connect message and exits with
code 1; the response object is otherwise discarded without any status
inspection (no raise_for_status), so the flow proceeds to upload_file. -/
def health_check_action : HealthOutcome → HealthAction
  | HealthOutcome.connectionError => HealthAction.exitCannotConnect
  | HealthOutcome.httpResponse _ => HealthAction.proceedToUpload

/-- Running totals of the downloaded counter: the value of `downloaded`
after each chunk of the download loop, starting from d.  Used to reason
about the percent reports of download_iter. -/
def partialSums : Nat → List (List Nat) → List Nat
  | _, [] => []
  | d, c :: cs => (d + c.length) :: partialSums (d + c.length) cs

/-- Two strings with the same character data are equal. -/
theorem string_data_ext {a b : String} (h : a.data = b.data) : a = b := by
  cases a
  cases b
  exact congrArg String.mk h

/-- terminalStatus is false exactly for statuses other than completed and
failed. -/
theorem terminalStatus_eq_false {s : String} :
    terminalStatus s = false ↔ s ≠ "completed" ∧ s ≠ "failed" := by
  simp [terminalStatus]

/-- C6: rotate_to_transpose is a pure total function on integers mapping
0 to 0, 90 to 1, 180 to 3, 270 to 2, and every other input to 0. -/
theorem claim_c6_rotation :
    rotate_to_transpose 0 = 0 ∧ rotate_to_transpose 90 = 1 ∧
      rotate_to_transpose 180 = 3 ∧ rotate_to_transpose 270 = 2 ∧
      ∀ d : Int, d ≠ 0 → d ≠ 90 → d ≠ 180 → d ≠ 270 →
        rotate_to_transpose d = 0 := by
  refine ⟨rfl, rfl, rfl, rfl, ?_⟩
  intro d h0 h90 h180 h270
  simp [rotate_to_transpose, h0, h90, h180, h270]

/-- Witness for C6: the fallback branch at the concrete input 45. -/
theorem claim_c6_rotation_witness : rotate_to_transpose 45 = 0 :=
  claim_c6_rotation.2.2.2.2 45 (by decide) (by decide) (by decide) (by decide)

/-- C10: the pre-flight health check exits with the cannot-connect error
exactly on a connection-level failure; a response with any HTTP status
code, including 500, is ignored and the flow proceeds to upload. -/
theorem claim_c10_health :
    health_check_action HealthOutcome.connectionError =
        HealthAction.exitCannotConnect ∧
      health_check_action (HealthOutcome.httpResponse 500) =
        HealthAction.proceedToUpload ∧
      ∀ s : Nat, health_check_action (HealthOutcome.httpResponse s) =
        HealthAction.proceedToUpload :=
  ⟨rfl, rfl, fun _ => rfl⟩

/-- C7: for percent at most 100, the rendered progress line carries a
30-cell bar of floor(30 x percent / 100) filled glyphs followed by the
remaining empty glyphs (15 and 15 at percent 50), appends the pass suffix
" (Pass cp/3)" exactly when cp is positive, and puts a 10-space pad
between the percent figure and the end marker. -/
theorem claim_c7_progress (p cp : Nat) (s endStr : String) (hp : p ≤ 100) :
    30 * p / 100 + (30 - 30 * p / 100) = 30 ∧
    30 * 50 / 100 = 15 ∧ 30 - 30 * 50 / 100 = 15 ∧
    (0 < cp → print_progress s p cp endStr =
      "\r" ++ s ++ (" (Pass " ++ Nat.repr cp ++ "/3)") ++ ": [" ++
        String.mk (List.replicate (30 * p / 100) '█' ++
          List.replicate (30 - 30 * p / 100) '░') ++ "] " ++ Nat.repr p ++
        "%" ++ String.mk (List.replicate 10 ' ') ++ endStr) ∧
    (cp = 0 → print_progress s p cp endStr =
      "\r" ++ s ++ ": [" ++
        String.mk (List.replicate (30 * p / 100) '█' ++
          List.replicate (30 - 30 * p / 100) '░') ++ "] " ++ Nat.repr p ++
        "%" ++ String.mk (List.replicate 10 ' ') ++ endStr) ∧
    (∃ body, print_progress s p cp endStr =
      body ++ String.mk (List.replicate 10 ' ') ++ endStr) := by
  have h4 : 0 < cp → print_progress s p cp endStr =
      "\r" ++ s ++ (" (Pass " ++ Nat.repr cp ++ "/3)") ++ ": [" ++
        String.mk (List.replicate (30 * p / 100) '█' ++
          List.replicate (30 - 30 * p / 100) '░') ++ "] " ++ Nat.repr p ++
        "%" ++ String.mk (List.replicate 10 ' ') ++ endStr := by
    intro h
    apply string_data_ext
    simp [print_progress, h, String.data_append]
  have h5 : cp = 0 → print_progress s p cp endStr =
      "\r" ++ s ++ ": [" ++
        String.mk (List.replicate (30 * p / 100) '█' ++
          List.replicate (30 - 30 * p / 100) '░') ++ "] " ++ Nat.repr p ++
        "%" ++ String.mk (List.replicate 10 ' ') ++ endStr := by
    intro h
    subst h
    apply string_data_ext
    simp [print_progress, String.data_append]
  refine ⟨by omega, by norm_num, by norm_num, h4, h5, ?_⟩
  rcases Nat.eq_zero_or_pos cp with h | h
  · exact ⟨_, h5 h⟩
  · exact ⟨_, h4 h⟩

/-- Witness for C7: the rendered line at percent 50, pass 2. -/
theorem claim_c7_progress_witness :
    print_progress "Processing" 50 2 "\r" =
      "\r" ++ "Processing" ++ (" (Pass " ++ Nat.repr 2 ++ "/3)") ++ ": [" ++
        String.mk (List.replicate 15 '█' ++ List.replicate 15 '░') ++ "] " ++
        Nat.repr 50 ++ "%" ++ String.mk (List.replicate 10 ' ') ++ "\r" := by
  have h := claim_c7_progress 50 2 "Processing" "\r" (by norm_num)
  exact h.2.2.2.1 (by norm_num)

/-- C4 counterexample: a 304 response (not a 2xx) with a non-empty jobs
list makes upload_file return the first job id instead of raising, because
requests' Response.ok accepts every status below 400; and the empty-jobs
message is "No job created", not "no job created". -/
theorem claim_c4_counterexample :
    (upload_file false (Except.ok
        { statusCode := 304, text := "",
          jsonBody := some { error := none, jobs := some [{ id := "abc" }] } })).outcome =
      UploadOutcome.success "abc" ∧
    (upload_file false (Except.ok
        { statusCode := 200, text := "raw",
          jsonBody := some { error := none, jobs := some [] } })).outcome =
      UploadOutcome.submissionError "No job created" ∧
    UploadOutcome.submissionError "No job created" ≠
      UploadOutcome.submissionError "no job created" := by
  refine ⟨rfl, rfl, by decide⟩

/-- C4 (amended): upload_file raises its RuntimeError exactly when the
response status is at least 400 or a below-400 response reports zero jobs;
on a below-400 response with a non-empty jobs list it returns the first
job's id; on a status of at least 400 the error carries the JSON error
field when present and otherwise the raw body; a below-400 zero-jobs
response yields the message "No job created". -/
theorem claim_c4_upload (hasBg : Bool) (resp : UploadResponse) :
    ((upload_file hasBg (Except.ok resp)).outcome.isSubmissionError = true ↔
      400 ≤ resp.statusCode ∨ (resp.statusCode < 400 ∧
        ∃ body, resp.jsonBody = some body ∧ body.jobs.getD [] = [])) ∧
    (∀ body firstJob rest, resp.statusCode < 400 → resp.jsonBody = some body →
      body.jobs.getD [] = firstJob :: rest →
      (upload_file hasBg (Except.ok resp)).outcome =
        UploadOutcome.success firstJob.id) ∧
    (∀ body e, 400 ≤ resp.statusCode → resp.jsonBody = some body →
      body.error = some e →
      (upload_file hasBg (Except.ok resp)).outcome =
        UploadOutcome.submissionError e) ∧
    (400 ≤ resp.statusCode → resp.jsonBody = none →
      (upload_file hasBg (Except.ok resp)).outcome =
        UploadOutcome.submissionError resp.text) ∧
    (∀ body, resp.statusCode < 400 → resp.jsonBody = some body →
      body.jobs.getD [] = [] →
      (upload_file hasBg (Except.ok resp)).outcome =
        UploadOutcome.submissionError "No job created") := by
  obtain ⟨code, text, jsonBody⟩ := resp
  by_cases hok : code < 400
  · refine ⟨?_, ?_, ?_, ?_, ?_⟩
    · cases jsonBody with
      | none =>
          simp [upload_file, hok, UploadOutcome.isSubmissionError]
      | some body =>
          cases hjobs : body.jobs.getD [] with
          | nil =>
              simp [upload_file, hok, hjobs, UploadOutcome.isSubmissionError]
          | cons a l =>
              simp [upload_file, hok, hjobs, UploadOutcome.isSubmissionError]
    · intro body firstJob rest _ hbody hjobs
      cases hbody
      simp [upload_file, hok, hjobs]
    · intro body e habs
      simp at habs
      omega
    · intro habs
      simp at habs
      omega
    · intro body _ hbody hjobs
      cases hbody
      simp [upload_file, hok, hjobs]
  · have h400 : 400 ≤ code := by omega
    refine ⟨?_, ?_, ?_, ?_, ?_⟩
    · cases jsonBody with
      | none =>
          simp [upload_file, hok, UploadOutcome.isSubmissionError]
          omega
      | some body =>
          simp [upload_file, hok, UploadOutcome.isSubmissionError]
          omega
    · intro body firstJob rest habs
      simp at habs
      omega
    · intro body e _ hbody herr
      cases hbody
      simp [upload_file, hok, herr]
    · intro _ hbody
      cases hbody
      simp [upload_file, hok]
    · intro body habs
      simp at habs
      omega

/-- Witness for C4 (amended): a 404 response whose body is
{"error": "bad file"} yields the submission error "bad file". -/
theorem claim_c4_upload_witness :
    (upload_file false (Except.ok
        { statusCode := 404, text := "raw",
          jsonBody := some { error := some "bad file", jobs := none } })).outcome =
      UploadOutcome.submissionError "bad file" := by
  have h := claim_c4_upload false
    { statusCode := 404, text := "raw",
      jsonBody := some { error := some "bad file", jobs := none } }
  exact h.2.2.1 { error := some "bad file", jobs := none } "bad file"
    (by decide) rfl rfl

/-- C5: when requests.post raises while both the primary file and the
background image are open, upload_file exits with both handles still open
(there is no try/finally), violating the release-on-every-exit-path
property; on the non-exceptional paths the close loop does run. -/
theorem claim_c5_handles :
    (upload_file true (Except.error "connection reset")).openHandlesAtExit =
      ["files", "background"] ∧
    (upload_file true (Except.error "connection reset")).openHandlesAtExit ≠ [] ∧
    (upload_file true (Except.ok
        { statusCode := 200, text := "",
          jsonBody := some { error := none, jobs := some [{ id := "j1" }] } })).openHandlesAtExit =
      [] ∧
    (upload_file true (Except.ok
        { statusCode := 500, text := "boom",
          jsonBody := none })).openHandlesAtExit = [] := by
  refine ⟨rfl, by decide, rfl, rfl⟩

/-- When every snapshot observable within the time budget is non-terminal
and some iteration below the fuel bound sees elapsed time beyond the
timeout, the loop ends in the timeout error. -/
theorem waitLoop_timedOut (timeout : Nat) (sp : Bool) (elapsed : Nat → Rat)
    (respond : Nat → Job) :
    ∀ fuel i,
      (∀ j, elapsed j ≤ (timeout : Rat) → terminalStatus (respond j).status = false) →
      (∃ N, i ≤ N ∧ N < i + fuel ∧ (timeout : Rat) < elapsed N) →
      (waitLoop timeout sp elapsed respond fuel i).2 = PollResult.timedOut timeout := by
  intro fuel
  induction fuel with
  | zero =>
      intro i _ h
      obtain ⟨N, hiN, hNf, _⟩ := h
      omega
  | succ fuel ih =>
      intro i hterm hN
      by_cases hc : (timeout : Rat) < elapsed i
      · simp [waitLoop, hc]
      · have hle : elapsed i ≤ (timeout : Rat) := not_lt.mp hc
        obtain ⟨hc1, hc2⟩ := terminalStatus_eq_false.mp (hterm i hle)
        obtain ⟨N, hiN, hNf, hNt⟩ := hN
        have hNi : i ≠ N := by
          rintro rfl
          exact hc hNt
        simp only [waitLoop, if_neg hc, if_neg hc1, if_neg hc2]
        exact ih (i + 1) hterm ⟨N, by omega, by omega, hNt⟩

/-- When the first terminal snapshot, at index n, is completed and every
iteration up to n is inside the time budget, the loop returns that
snapshot, and with progress enabled the last write is the final
100-percent Completed line. -/
theorem waitLoop_completed (timeout : Nat) (sp : Bool) (elapsed : Nat → Rat)
    (respond : Nat → Job) :
    ∀ fuel i n, i ≤ n → n < i + fuel →
      (∀ j, i ≤ j → j ≤ n → elapsed j ≤ (timeout : Rat)) →
      (∀ j, i ≤ j → j < n → terminalStatus (respond j).status = false) →
      (respond n).status = "completed" →
      (waitLoop timeout sp elapsed respond fuel i).2 = PollResult.completed (respond n) ∧
      (sp = true → ∃ pre, (waitLoop timeout sp elapsed respond fuel i).1 =
        pre ++ [print_progress "Completed" 100 0 "\n"]) := by
  intro fuel
  induction fuel with
  | zero =>
      intro i n h1 h2
      omega
  | succ fuel ih =>
      intro i n hin hnf helapsed hterm hcomp
      have hc : ¬ ((timeout : Rat) < elapsed i) :=
        not_lt.mpr (helapsed i le_rfl hin)
      by_cases hi : i = n
      · subst hi
        refine ⟨by simp [waitLoop, hc, hcomp], fun hsp => ?_⟩
        subst hsp
        exact ⟨statusLine true (respond i),
          by simp [waitLoop, hc, hcomp, completedLine]⟩
      · have hlt : i < n := lt_of_le_of_ne hin hi
        obtain ⟨hc1, hc2⟩ := terminalStatus_eq_false.mp (hterm i le_rfl hlt)
        have hrec := ih (i + 1) n (by omega) (by omega)
          (fun j hj1 hj2 => helapsed j (by omega) hj2)
          (fun j hj1 hj2 => hterm j (by omega) hj2) hcomp
        refine ⟨?_, fun hsp => ?_⟩
        · simp only [waitLoop, if_neg hc, if_neg hc1, if_neg hc2]
          exact hrec.1
        · obtain ⟨pre, hpre⟩ := hrec.2 hsp
          refine ⟨statusLine sp (respond i) ++ pre, ?_⟩
          simp only [waitLoop, if_neg hc, if_neg hc1, if_neg hc2]
          rw [hpre, List.append_assoc]

/-- When the first terminal snapshot, at index n, is failed and every
iteration up to n is inside the time budget, the loop raises the
conversion-failed error carrying error_message (or the Unknown-error
default), and with progress enabled the last write is a line break. -/
theorem waitLoop_failed (timeout : Nat) (sp : Bool) (elapsed : Nat → Rat)
    (respond : Nat → Job) :
    ∀ fuel i n, i ≤ n → n < i + fuel →
      (∀ j, i ≤ j → j ≤ n → elapsed j ≤ (timeout : Rat)) →
      (∀ j, i ≤ j → j < n → terminalStatus (respond j).status = false) →
      (respond n).status = "failed" →
      (waitLoop timeout sp elapsed respond fuel i).2 =
        PollResult.conversionFailed ((respond n).error_message.getD "Unknown error") ∧
      (sp = true → ∃ pre, (waitLoop timeout sp elapsed respond fuel i).1 =
        pre ++ ["\n"]) := by
  intro fuel
  induction fuel with
  | zero =>
      intro i n h1 h2
      omega
  | succ fuel ih =>
      intro i n hin hnf helapsed hterm hfail
      have hc : ¬ ((timeout : Rat) < elapsed i) :=
        not_lt.mpr (helapsed i le_rfl hin)
      by_cases hi : i = n
      · subst hi
        have hnc : ¬ ((respond i).status = "completed") := by
          rw [hfail]
          decide
        refine ⟨by simp [waitLoop, hc, hnc, hfail, failMsg], fun hsp => ?_⟩
        subst hsp
        exact ⟨statusLine true (respond i),
          by simp [waitLoop, hc, hnc, hfail, failedBreak]⟩
      · have hlt : i < n := lt_of_le_of_ne hin hi
        obtain ⟨hc1, hc2⟩ := terminalStatus_eq_false.mp (hterm i le_rfl hlt)
        have hrec := ih (i + 1) n (by omega) (by omega)
          (fun j hj1 hj2 => helapsed j (by omega) hj2)
          (fun j hj1 hj2 => hterm j (by omega) hj2) hfail
        refine ⟨?_, fun hsp => ?_⟩
        · simp only [waitLoop, if_neg hc, if_neg hc1, if_neg hc2]
          exact hrec.1
        · obtain ⟨pre, hpre⟩ := hrec.2 hsp
          refine ⟨statusLine sp (respond i) ++ pre, ?_⟩
          simp only [waitLoop, if_neg hc, if_neg hc1, if_neg hc2]
          rw [hpre, List.append_assoc]

/-- The download loop writes exactly the concatenation of the chunks. -/
theorem download_iter_written (total : Nat) (sp : Bool) :
    ∀ (cs : List (List Nat)) (d : Nat),
      (download_iter total sp cs d).1 = cs.flatten := by
  intro cs
  induction cs with
  | nil => intro d; rfl
  | cons c cs ih => intro d; simp [download_iter, ih]

/-- With progress disabled or an unknown total, the download loop reports
no percent values. -/
theorem download_iter_percents_off (total : Nat) (sp : Bool)
    (h : sp = false ∨ total = 0) :
    ∀ (cs : List (List Nat)) (d : Nat),
      (download_iter total sp cs d).2 = [] := by
  have hcond : ¬ (sp = true ∧ 0 < total) := by
    rcases h with h | h <;> simp [h]
  intro cs
  induction cs with
  | nil => intro d; rfl
  | cons c cs ih => intro d; simp [download_iter, hcond, ih]

/-- With progress enabled and a positive total, the percent reports are the
running byte totals scaled by 100 over the total, floor-divided. -/
theorem download_iter_percents_on (total : Nat) (ht : 0 < total) :
    ∀ (cs : List (List Nat)) (d : Nat),
      (download_iter total true cs d).2 =
        (partialSums d cs).map (fun x => x * 100 / total) := by
  intro cs
  induction cs with
  | nil => intro d; rfl
  | cons c cs ih => intro d; simp [download_iter, partialSums, ht, ih]

/-- The running totals never decrease along the list, from the start value. -/
theorem partialSums_chain :
    ∀ (cs : List (List Nat)) (d : Nat),
      List.Chain (· ≤ ·) d (partialSums d cs) := by
  intro cs
  induction cs with
  | nil => intro d; exact List.Chain.nil
  | cons c cs ih =>
      intro d
      exact List.Chain.cons (Nat.le_add_right d c.length) (ih (d + c.length))

/-- The running totals form a non-decreasing list. -/
theorem partialSums_chain' (cs : List (List Nat)) (d : Nat) :
    List.Chain' (· ≤ ·) (partialSums d cs) := by
  cases cs with
  | nil => exact trivial
  | cons c cs => exact partialSums_chain cs (d + c.length)

/-- Mapping a monotone Nat function preserves a non-decreasing chain. -/
theorem chain_le_map_div (total : Nat) (l : List Nat)
    (h : List.Chain' (· ≤ ·) l) :
    List.Chain' (· ≤ ·) (l.map (fun x => x * 100 / total)) := by
  rw [List.chain'_map]
  exact h.imp fun a b hab =>
    Nat.div_le_div_right (Nat.mul_le_mul_right 100 hab)

/-- getLast? of a cons with a non-empty tail is getLast? of the tail. -/
theorem getLast_cons_ne (a : Nat) (l : List Nat) (h : l ≠ []) :
    (a :: l).getLast? = l.getLast? := by
  cases l with
  | nil => exact absurd rfl h
  | cons b m => rfl

/-- getLast? commutes with map. -/
theorem getLast_of_map (f : Nat → Nat) :
    ∀ l : List Nat, (l.map f).getLast? = (l.getLast?).map f := by
  intro l
  induction l with
  | nil => rfl
  | cons a m ih =>
      cases m with
      | nil => rfl
      | cons b m2 =>
          rw [List.map_cons, getLast_cons_ne _ _ (by simp),
            getLast_cons_ne _ _ (by simp)]
          exact ih

/-- The last running total over a non-empty chunk list is the start value
plus the total chunk length. -/
theorem partialSums_getLast :
    ∀ (cs : List (List Nat)) (d : Nat), cs ≠ [] →
      (partialSums d cs).getLast? = some (d + (cs.map List.length).sum) := by
  intro cs
  induction cs with
  | nil => intro d h; exact absurd rfl h
  | cons c cs ih =>
      intro d _
      cases cs with
      | nil => simp [partialSums]
      | cons c2 cs2 =>
          have hne : partialSums (d + c.length) (c2 :: cs2) ≠ [] := by
            simp [partialSums]
          calc (partialSums d (c :: c2 :: cs2)).getLast?
              = (partialSums (d + c.length) (c2 :: cs2)).getLast? := by
                rw [partialSums]
                exact getLast_cons_ne _ _ hne
            _ = some (d + c.length + ((c2 :: cs2).map List.length).sum) :=
                ih (d + c.length) (by simp)
            _ = some (d + ((c :: c2 :: cs2).map List.length).sum) := by
                congr 1
                simp only [List.map_cons, List.sum_cons]
                omega

/-- C8: download_file writes exactly the concatenation of the chunks; with
progress enabled and a positive content-length equal to the delivered
bytes, the percent reports are non-decreasing and end at 100; with
progress disabled or content-length absent or zero, no percent is
reported while the bytes are still all written. -/
theorem claim_c8_download (total : Nat) (chunks : List (List Nat)) (sp : Bool) :
    (download_file total chunks sp).written = chunks.flatten ∧
    (sp = false ∨ total = 0 → (download_file total chunks sp).percents = []) ∧
    (sp = true → 0 < total → (chunks.map List.length).sum = total →
      List.Chain' (· ≤ ·) (download_file total chunks sp).percents ∧
      (chunks ≠ [] →
        (download_file total chunks sp).percents.getLast? = some 100)) := by
  refine ⟨?_, ?_, ?_⟩
  · simpa [download_file] using download_iter_written total sp chunks 0
  · intro h
    simpa [download_file] using download_iter_percents_off total sp h chunks 0
  · intro hsp ht hsum
    subst hsp
    have hper : (download_file total chunks true).percents =
        (partialSums 0 chunks).map (fun x => x * 100 / total) := by
      simpa [download_file] using download_iter_percents_on total ht chunks 0
    constructor
    · rw [hper]
      exact chain_le_map_div total _ (partialSums_chain' chunks 0)
    · intro hne
      rw [hper, getLast_of_map, partialSums_getLast chunks 0 hne]
      have h100 : (chunks.map List.length).sum * 100 / total = 100 := by
        rw [hsum, Nat.mul_comm, Nat.mul_div_assoc 100 (dvd_refl total),
          Nat.div_self ht, Nat.mul_one]
      simp [h100]

/-- Witness for C8: content-length 1000 with chunks of 400, 400 and 200
bytes; 1000 bytes are written and the percent reports are non-decreasing
ending at 100. -/
theorem claim_c8_download_witness :
    (download_file 1000 [List.replicate 400 0, List.replicate 400 0,
      List.replicate 200 0] true).written.length = 1000 ∧
    List.Chain' (· ≤ ·) (download_file 1000 [List.replicate 400 0,
      List.replicate 400 0, List.replicate 200 0] true).percents ∧
    (download_file 1000 [List.replicate 400 0, List.replicate 400 0,
      List.replicate 200 0] true).percents.getLast? = some 100 := by
  have h := claim_c8_download 1000
    [List.replicate 400 0, List.replicate 400 0, List.replicate 200 0] true
  have hsum : (([List.replicate 400 (0 : Nat), List.replicate 400 0,
      List.replicate 200 0]).map List.length).sum = 1000 := by
    simp only [List.map_cons, List.map_nil, List.length_replicate,
      List.sum_cons, List.sum_nil]
    norm_num
  refine ⟨?_, (h.2.2 rfl (by norm_num) hsum).1,
    (h.2.2 rfl (by norm_num) hsum).2 (by simp)⟩
  rw [h.1, List.length_flatten]
  exact hsum

/-- C9 counterexample: at a concrete input the Python download_file writes
3 bytes but returns None, not the byte count. -/
theorem claim_c9_counterexample :
    (download_file 3 [[1, 2], [3]] true).retval = none ∧
    (download_file 3 [[1, 2], [3]] true).written.length = 3 ∧
    (download_file 3 [[1, 2], [3]] true).retval ≠
      some ((download_file 3 [[1, 2], [3]] true).written.length) := by
  refine ⟨rfl, rfl, by decide⟩

/-- C9 (amended): the download operation returns no value (Python None);
the number of bytes written to the destination equals the total length of
the streamed chunks but is not returned to the caller. -/
theorem claim_c9_retval (total : Nat) (chunks : List (List Nat)) (sp : Bool) :
    (download_file total chunks sp).retval = none ∧
    (download_file total chunks sp).written.length =
      (chunks.map List.length).sum := by
  refine ⟨rfl, ?_⟩
  have h : (download_file total chunks sp).written = chunks.flatten := by
    simpa [download_file] using download_iter_written total sp chunks 0
  rw [h]
  simp

/-- C1: when no snapshot observable while the elapsed time is within the
timeout is terminal and some iteration within the fuel bound sees elapsed
time beyond the timeout, wait_for_completion raises the timeout error
carrying the timeout in seconds; moreover any iteration whose elapsed
time exceeds the timeout stops the loop at once, before fetching or
printing anything. -/
theorem claim_c1_timeout (timeout fuel : Nat) (sp : Bool)
    (elapsed : Nat → Rat) (respond : Nat → Job)
    (hterm : ∀ j, elapsed j ≤ (timeout : Rat) →
      terminalStatus (respond j).status = false)
    (hN : ∃ N, N < fuel ∧ (timeout : Rat) < elapsed N) :
    (wait_for_completion timeout sp elapsed respond fuel).2 =
      PollResult.timedOut timeout ∧
    (∀ k j, (timeout : Rat) < elapsed j →
      waitLoop timeout sp elapsed respond (k + 1) j =
        ([], PollResult.timedOut timeout)) := by
  constructor
  · obtain ⟨N, h1, h2⟩ := hN
    exact waitLoop_timedOut timeout sp elapsed respond fuel 0 hterm
      ⟨N, Nat.zero_le N, by omega, h2⟩
  · intro k j hj
    simp [waitLoop, hj]

/-- Witness for C1: with a one-second timeout, elapsed time i seconds at
iteration i and a scripted job that stays processing, the loop times out. -/
theorem claim_c1_timeout_witness :
    (wait_for_completion 1 true (fun i => (i : Rat))
      (fun _ => { status := "processing", progress := 10, current_pass := 0,
                  error_message := none }) 3).2 = PollResult.timedOut 1 := by
  have h := claim_c1_timeout 1 3 true (fun i => (i : Rat))
    (fun _ => { status := "processing", progress := 10, current_pass := 0,
                error_message := none })
    (fun j _ => rfl) ⟨2, by norm_num, by norm_num⟩
  exact h.1

/-- C2: when the first terminal snapshot, reached within the timeout, is
failed, wait_for_completion raises the conversion-failed error carrying
error_message (or "Unknown error" when that key is absent), and with
progress enabled the last write before raising is a line break. -/
theorem claim_c2_failed (timeout fuel n : Nat) (sp : Bool)
    (elapsed : Nat → Rat) (respond : Nat → Job)
    (hfuel : n < fuel)
    (helapsed : ∀ j, j ≤ n → elapsed j ≤ (timeout : Rat))
    (hterm : ∀ j, j < n → terminalStatus (respond j).status = false)
    (hfail : (respond n).status = "failed") :
    (wait_for_completion timeout sp elapsed respond fuel).2 =
      PollResult.conversionFailed ((respond n).error_message.getD "Unknown error") ∧
    (sp = true → ∃ pre, (wait_for_completion timeout sp elapsed respond fuel).1 =
      pre ++ ["\n"]) :=
  waitLoop_failed timeout sp elapsed respond fuel 0 n (Nat.zero_le n)
    (by omega) (fun j _ hj => helapsed j hj) (fun j _ hj => hterm j hj) hfail

/-- Witness for C2: queued then failed with error_message "boom". -/
theorem claim_c2_failed_witness :
    (wait_for_completion 5 true (fun _ => 0)
      (fun i => if i = 0 then
          { status := "queued", progress := 0, current_pass := 0,
            error_message := none }
        else
          { status := "failed", progress := 50, current_pass := 0,
            error_message := some "boom" }) 4).2 =
      PollResult.conversionFailed "boom" ∧
    (∃ pre, (wait_for_completion 5 true (fun _ => 0)
      (fun i => if i = 0 then
          { status := "queued", progress := 0, current_pass := 0,
            error_message := none }
        else
          { status := "failed", progress := 50, current_pass := 0,
            error_message := some "boom" }) 4).1 = pre ++ ["\n"]) := by
  have h := claim_c2_failed 5 4 1 true (fun _ => 0)
    (fun i => if i = 0 then
        { status := "queued", progress := 0, current_pass := 0,
          error_message := none }
      else
        { status := "failed", progress := 50, current_pass := 0,
          error_message := some "boom" })
    (by norm_num) (fun j _ => by norm_num)
    (fun j hj => by
      have hj0 : j = 0 := by omega
      subst hj0
      rfl)
    rfl
  exact ⟨h.1, h.2 rfl⟩

/-- C3: when the first terminal snapshot, reached within the timeout, is
completed, wait_for_completion returns that snapshot unchanged, and with
progress enabled the last write is the final 100-percent Completed line. -/
theorem claim_c3_completed (timeout fuel n : Nat) (sp : Bool)
    (elapsed : Nat → Rat) (respond : Nat → Job)
    (hfuel : n < fuel)
    (helapsed : ∀ j, j ≤ n → elapsed j ≤ (timeout : Rat))
    (hterm : ∀ j, j < n → terminalStatus (respond j).status = false)
    (hcomp : (respond n).status = "completed") :
    (wait_for_completion timeout sp elapsed respond fuel).2 =
      PollResult.completed (respond n) ∧
    (sp = true → ∃ pre, (wait_for_completion timeout sp elapsed respond fuel).1 =
      pre ++ [print_progress "Completed" 100 0 "\n"]) :=
  waitLoop_completed timeout sp elapsed respond fuel 0 n (Nat.zero_le n)
    (by omega) (fun j _ hj => helapsed j hj) (fun j _ hj => hterm j hj) hcomp

/-- Witness for C3: processing twice, then completed at iteration 2. -/
theorem claim_c3_completed_witness :
    (wait_for_completion 5 true (fun _ => 0)
      (fun i => if i < 2 then
          { status := "processing", progress := 40, current_pass := 0,
            error_message := none }
        else
          { status := "completed", progress := 100, current_pass := 0,
            error_message := none }) 5).2 =
      PollResult.completed
        { status := "completed", progress := 100, current_pass := 0,
          error_message := none } ∧
    (∃ pre, (wait_for_completion 5 true (fun _ => 0)
      (fun i => if i < 2 then
          { status := "processing", progress := 40, current_pass := 0,
            error_message := none }
        else
          { status := "completed", progress := 100, current_pass := 0,
            error_message := none }) 5).1 =
      pre ++ [print_progress "Completed" 100 0 "\n"]) := by
  have h := claim_c3_completed 5 5 2 true (fun _ => 0)
    (fun i => if i < 2 then
        { status := "processing", progress := 40, current_pass := 0,
          error_message := none }
      else
        { status := "completed", progress := 100, current_pass := 0,
          error_message := none })
    (by norm_num) (fun j _ => by norm_num)
    (fun j hj => by
      have : j < 2 := by omega
      simp [this, terminalStatus])
    rfl
  exact ⟨h.1, h.2 rfl⟩

end GifConverter
